import Mathlib

/-!
Verification of the NiftyTTS job pipeline against its natural-language
specification.  The definitions below are a shallow embedding of the
Python source: `app/app.py` (path/name deriver, job submission),
`app/watchers/dispatcher_watch.py` (dispatcher loop),
`app/watchers/job_utils.py` (finalizer, folder OPF) and
`app/backends/{edge,piper}.py` (backend synthesis).  File-system effects
are modelled by explicit state records; each dispatcher file operation
yields one observation point in a state trace.
-/

namespace NiftyTTS

/-! ## String helpers (Python primitives used by the source)

All recursion here is structural, so every definition evaluates inside the
kernel on concrete inputs.  Several Lean core `String` functions are avoided
on purpose (their byte-position loops do not reduce); the replacements below
operate on `String.toList`. -/

/-- Drop characters satisfying `p` from both ends (Python `str.strip(chars)`). -/
def trimChars (p : Char → Bool) (s : String) : String :=
  String.mk (((s.toList.dropWhile p).reverse.dropWhile p).reverse)

/-- Python `str.strip()` (whitespace). -/
def pyStrip (s : String) : String := trimChars (fun c => c.isWhitespace) s

/-- Python `str.lower()` (ASCII range, which covers the inputs used here). -/
def pyLower (s : String) : String := String.mk (s.toList.map Char.toLower)

/-- Replace every occurrence of the character `a` by `rep`
(Python `str.replace` with one-character arguments). -/
def replaceCharWith (a rep : Char) (s : String) : String :=
  String.mk (s.toList.map (fun c => if c = a then rep else c))

/-- Replace every occurrence of the character `a` by the string `rep`
(one pass of Python `str.replace(a, rep)`). -/
def expandChar (a : Char) (rep : String) (s : String) : String :=
  String.mk (s.toList.flatMap (fun c => if c = a then rep.toList else [c]))

/-- Python `str.split(sep)` for a one-character separator: empty fields are
kept, and the empty string yields `[""]`. -/
def splitOnChar (sep : Char) : List Char → List (List Char)
  | [] => [[]]
  | c :: rest =>
    if c = sep then [] :: splitOnChar sep rest
    else
      match splitOnChar sep rest with
      | [] => [[c]]
      | g :: gs => (c :: g) :: gs

def pySplitChar (sep : Char) (s : String) : List String :=
  (splitOnChar sep s.toList).map String.mk

def strContains (s : String) (c : Char) : Bool := s.toList.contains c

def strStartsWith (s pre : String) : Bool := pre.toList.isPrefixOf s.toList

def strEndsWith (s suf : String) : Bool := suf.toList.isSuffixOf s.toList

/-- Replace every maximal run of characters satisfying `p` by the single
character `rep` (Python `re.sub(r"[...]+", rep, s)`); `inRun` tracks whether
the previous character belonged to a run. -/
def collapseRunsGo (p : Char → Bool) (rep : Char) : List Char → Bool → List Char
  | [], _ => []
  | c :: rest, inRun =>
    if p c then
      if inRun then collapseRunsGo p rep rest true
      else rep :: collapseRunsGo p rep rest true
    else c :: collapseRunsGo p rep rest false

def collapseRuns (p : Char → Bool) (rep : Char) (cs : List Char) : List Char :=
  collapseRunsGo p rep cs false

/-- Python `str.title()` restricted to ASCII: a letter is upper-cased when the
previous character is not a letter, and lower-cased otherwise. -/
def titleCaseGo : List Char → Bool → List Char
  | [], _ => []
  | c :: rest, prevAlpha =>
    (if c.isAlpha then (if prevAlpha then c.toLower else c.toUpper) else c)
      :: titleCaseGo rest c.isAlpha

def titleCase (s : String) : String := String.mk (titleCaseGo s.toList false)

/-- Python `"." in s` then `s.rsplit(".", 1)[0]`: drop the last dot and what
follows it when a dot is present. -/
def dropExt (s : String) : String :=
  let parts := splitOnChar '.' s.toList
  if parts.length ≥ 2 then String.mk (List.intercalate ['.'] parts.dropLast) else s

/-- Digits of a decimal string as a number (Python `int`, on all-digit input). -/
def toNatDigits (s : String) : Nat :=
  s.toList.foldl (fun n c => n * 10 + (c.toNat - 48)) 0

/-- Python `f"{n:03d}"`: decimal, left-padded with zeros to width 3. -/
def pad3 (n : Nat) : String :=
  if n < 10 then "00" ++ toString n
  else if n < 100 then "0" ++ toString n
  else toString n

/-! ## URL model

`urllib.parse.urlparse` supplies only `netloc` and `path` to the functions
under study; a URL is embedded as that pair, and `urlparseSimple` recovers it
from a `scheme://host/path` string (no query/fragment/userinfo, which the
inputs under study do not use). -/

structure Url where
  netloc : String
  path : String
  deriving Repr, DecidableEq

def splitSchemeAux : List Char → Option (List Char)
  | ':' :: '/' :: '/' :: rest => some rest
  | _ :: rest => splitSchemeAux rest
  | [] => none

def urlparseSimple (u : String) : Url :=
  let rest :=
    match splitSchemeAux u.toList with
    | some r => String.mk r
    | none => u
  match pySplitChar '/' rest with
  | [] => ⟨rest, ""⟩
  | h :: t => ⟨h, if t.isEmpty then "" else "/" ++ String.intercalate "/" t⟩

/-! ## Path/Name Deriver (`app/app.py`) -/

/-- Embeds `_slug_to_title` from `app/app.py`:
`slug.replace("-", " ").strip().title()`. -/
def slug_to_title (slug : String) : String :=
  titleCase (pyStrip (replaceCharWith '-' ' ' slug))

/-- Windows-invalid filename characters `\\ / < > : " | ? *`. -/
def isWinInvalid (c : Char) : Bool :=
  c = '\\' || c = '/' || c = '<' || c = '>' || c = ':' || c = '"' ||
  c = '|' || c = '?' || c = '*'

/-- Embeds `_sanitize_segment` from `app/app.py`: strip, replace runs of
Windows-invalid characters by `_`, collapse whitespace, strip trailing/leading
spaces and dots, defaulting to `"Untitled"`. -/
def sanitize_segment (name : String) : String :=
  let n1 := pyStrip name
  let n2 := String.mk (collapseRuns isWinInvalid '_' n1.toList)
  let n3 := String.mk (collapseRuns (fun c => c.isWhitespace) ' ' n2.toList)
  let n4 := trimChars (fun c => c = ' ' || c = '.') n3
  if n4 = "" then "Untitled" else n4

/-- Display-name extraction of `email.utils.parseaddr(s)[0]` for the header
forms used here: the text before `<` of a `Name <addr>` value; a bare address
(no `<`) has an empty display name. -/
def parseaddrName (s : String) : String :=
  if strContains s '<' then pyStrip ((pySplitChar '<' s).headD "") else ""

/-- Headers dict with keys `"from"`, `"subject"`, `"date"`. -/
structure Headers where
  fromAddr : String
  subject : String
  date : String
  deriving Repr, DecidableEq

/-- The extra tagging hints returned by `output_relpath_for`
(`extra_meta["album"]`, `extra_meta["track"]`). -/
structure ExtraMeta where
  album : Option String
  track : Option Nat
  deriving Repr, DecidableEq

/-- Computes `parsed.path.strip("/").split("/") if parsed.path else []`. -/
def allParts (url : Url) : List String :=
  if url.path = "" then []
  else pySplitChar '/' (trimChars (fun c => c = '/') url.path)

def nonemptyParts (url : Url) : List String :=
  (allParts url).filter (fun p => p ≠ "")

/-- Last path segment, else the netloc. -/
def filePartRaw (url : Url) : String :=
  match (nonemptyParts url).getLast? with
  | some p => p
  | none => url.netloc

/-- Computes `parts[-2] if len(parts) >= 2 else ""`. -/
def folderSlug (url : Url) : String :=
  let ps := nonemptyParts url
  if h : ps.length ≥ 2 then ps.get ⟨ps.length - 2, by omega⟩ else ""

/-- Final segment with its extension stripped. -/
def fileStem (url : Url) : String :=
  let fp := filePartRaw url
  if strContains fp '.' then dropExt fp else fp

/-- Embeds `re.match(r"^(.*?)(?:-(\d+))?$", file_part)`: when the stem ends in `-`
followed by one or more digits, split them off; else no digits. -/
def splitTrailingTrack (s : String) : String × Option String :=
  let cs := s.toList
  let ds := (cs.reverse.takeWhile (fun c => c.isDigit)).reverse
  let pre := cs.take (cs.length - ds.length)
  if ds ≠ [] ∧ pre.getLast? = some '-' then
    (String.mk pre.dropLast, some (String.mk ds))
  else (s, none)

def baseSlug (url : Url) : String := (splitTrailingTrack (fileStem url)).1

def trackDigits (url : Url) : Option String := (splitTrailingTrack (fileStem url)).2

def seriesTitle (url : Url) : String :=
  if folderSlug url ≠ "" then slug_to_title (folderSlug url) else ""

def urlTitle (url : Url) : String := slug_to_title (baseSlug url)

/-- Computes `parseaddr(raw_from)[0].strip() if raw_from else ""`, then
`_sanitize_segment(author_name or "Unknown")`. -/
def authorDir (headers : Headers) : String :=
  let rawFrom := pyStrip headers.fromAddr
  let authorName := if rawFrom ≠ "" then pyStrip (parseaddrName rawFrom) else ""
  sanitize_segment (if authorName ≠ "" then authorName else "Unknown")

def titleClean (url : Url) (headers : Headers) : String :=
  let rawSubject := pyStrip headers.subject
  sanitize_segment (if rawSubject ≠ "" then rawSubject else urlTitle url)

/-- Computes `int(digits) if digits else None`. -/
def trackNum (url : Url) : Option Nat := (trackDigits url).map toNatDigits

/-- Computes the item folder, `f"{track_num:03d} - {title_clean}" if track_num else title_clean`
(note: Python truthiness, so track `0` takes the un-prefixed branch). -/
def itemFolder (url : Url) (headers : Headers) : String :=
  match trackNum url with
  | some n => if n ≠ 0 then pad3 n ++ " - " ++ titleClean url headers else titleClean url headers
  | none => titleClean url headers

def seriesDir (url : Url) : Option String :=
  if seriesTitle url ≠ "" then some (sanitize_segment (seriesTitle url)) else none

def mp3Name (url : Url) (headers : Headers) : String := titleClean url headers ++ ".mp3"

/-- Host lower-cased with a leading `www.` removed. -/
def hostStripped (url : Url) : String :=
  let host := pyLower url.netloc
  if strStartsWith host "www." then host.drop 4 else host

/-- Computes `max(0, len(nonempty_parts) - 1)` (folders before the file). -/
def preFileDepth (url : Url) : Nat := (nonemptyParts url).length - 1

/-- Computes `host.endswith("nifty.org") and nonempty_parts[:1] == ["nifty"]`. -/
def isNifty (url : Url) : Bool :=
  strEndsWith (hostStripped url) "nifty.org" && (nonemptyParts url).take 1 = ["nifty"]

/-- The non-series special case: nifty host/path shape with exactly 3 folder
levels before the file. -/
def isNiftyNonSeries (url : Url) : Bool :=
  isNifty url && preFileDepth url = 3

/-- Embeds `output_relpath_for` from `app/app.py`: the relative output path (as its
list of segments, last element the MP3 filename) and the extra tag hints. -/
def output_relpath_for (url : Url) (headers : Headers) : List String × ExtraMeta :=
  if isNiftyNonSeries url then
    ([authorDir headers, itemFolder url headers, mp3Name url headers],
     { album := none, track := none })
  else
    let segments :=
      [authorDir headers] ++
        (match seriesDir url with | some d => [d] | none => []) ++
        [itemFolder url headers, mp3Name url headers]
    (segments,
     { album := if seriesTitle url ≠ "" then some (seriesTitle url) else none,
       track := trackNum url })

/-- Renders the derived relative path as `Path.as_posix()` does. -/
def outputRelStr (segs : List String) : String := String.intercalate "/" segs

/-! ## Job base name (`build_job` in `app/app.py`)

The wall-clock timestamp string enters only through the `ts` parameter. -/

def isSafeBaseChar (c : Char) : Bool :=
  ('a' ≤ c ∧ c ≤ 'z') || ('0' ≤ c ∧ c ≤ '9') || c = ' ' || c = '_' ||
  c = '-' || c = '(' || c = ')' || c = '.' || c = '@'

/-- The `base_name` computation of `build_job`: host (lower, `www.` and dots
rewritten) joined with the path components (extension stripped from the last),
lower-cased, timestamp appended, characters outside the safe set replaced by `_`. -/
def build_base_name (url : Url) (ts : String) : String :=
  let host0 := pyLower url.netloc
  let host1 := if strStartsWith host0 "www." then host0.drop 4 else host0
  let host := replaceCharWith '.' '-' host1
  let path := trimChars (fun c => c = '/') url.path
  let parts0 := if path = "" then [] else pySplitChar '/' path
  let parts :=
    match parts0.getLast? with
    | some last =>
        parts0.dropLast ++ [if strContains last '.' then dropExt last else last]
    | none => parts0
  let combined := if parts ≠ [] then String.intercalate "-" (host :: parts) else host
  let base := pyLower combined ++ " " ++ ts
  String.mk (base.toList.map (fun c => if isSafeBaseChar c then c else '_'))

/-- The full deriver of `build_job`: unique base name (timestamp-dependent)
plus the deterministic output path and tag hints. -/
def derive (url : Url) (headers : Headers) (ts : String) :
    String × (List String × ExtraMeta) :=
  (build_base_name url ts, output_relpath_for url headers)

/-! ## Job submission (`build_job` file writes, `app/app.py`)

`build_job` ends with `text_path.write_text(body)` followed by
`meta_path.write_text(json.dumps(meta))`, in that order.  The dispatcher
enumerates jobs by `IN_DIR.glob("*.txt")`.  Each write is one event; the
observation points are the states before, between and after the writes. -/

structure InFS where
  txtWritten : Bool
  jsonWritten : Bool
  deriving Repr, DecidableEq

inductive SubmitWrite
  | txt
  | json
  deriving Repr, DecidableEq

/-- The file writes of `build_job`, in source order (`.txt` first). -/
def build_job_writes : List SubmitWrite := [SubmitWrite.txt, SubmitWrite.json]

def applySubmitWrite (fs : InFS) : SubmitWrite → InFS
  | SubmitWrite.txt => { fs with txtWritten := true }
  | SubmitWrite.json => { fs with jsonWritten := true }

/-- All observation points of a `build_job` submission, starting from no
files present. -/
def submitStates : List InFS :=
  build_job_writes.scanl applySubmitWrite ⟨false, false⟩

/-- Visibility: `peek_undispatched`, i.e. the `IN_DIR.glob("*.txt")` of the dispatcher, sees a job
iff its text file exists. -/
def visibleToDispatcher (fs : InFS) : Bool := fs.txtWritten

/-! ## Folder OPF (`_ensure_folder_opf` in `app/watchers/job_utils.py`) -/

/-- Python string truthiness: `a or b`. -/
def pyOr (a b : String) : String := if a = "" then b else a

/-- An apostrophe character, kept out of string literals. -/
def apos : String := String.singleton (Char.ofNat 39)

/-- Embeds `html.escape(s, quote=True)` as used by `_xml`. -/
def xmlEscape (s : String) : String :=
  expandChar (Char.ofNat 39) "&#x27;"
    (expandChar '\"' "&quot;"
      (expandChar '>' "&gt;" (expandChar '<' "&lt;" (expandChar '&' "&amp;" s))))

/-- The metadata dictionary fields read by `_ensure_folder_opf`; a missing
key is the empty string (`meta.get(k) or default`). -/
structure OpfMeta where
  title : String
  subject : String
  album : String
  series : String
  fromName : String
  composer : String
  date : String
  language : String
  genre : String
  publisher : String
  track : Option Nat
  url : String
  deriving Repr, DecidableEq

/-- The OPF 2.0 document produced by `_ensure_folder_opf` when the file is
absent.  `bookId` stands for the generated `urn:uuid:...` identifier. -/
def opfContent (folderName : String) (meta : OpfMeta) (bookId : String) : String :=
  let title := pyStrip (pyOr meta.title (pyOr meta.subject (pyOr meta.album folderName)))
  let series := pyStrip meta.series
  let artist := pyStrip meta.fromName
  let narrator := pyStrip meta.composer
  let dateStr := pyStrip meta.date
  let language := pyStrip (pyOr meta.language "en")
  let genre := pyStrip (pyOr meta.genre "erotica")
  let publisher := pyStrip (pyOr meta.publisher "nifty.org")
  let seriesIndex := match meta.track with | some n => toString n | none => ""
  let url := pyStrip meta.url
  let descLines :=
    ["This file was converted from a story posted to nifty.org, the original author retains all copyright, and this file may ONLY be used for personal use and not distributed in any way."] ++
      (if url ≠ "" then ["", "", "Original URL:  " ++ url] else [])
  let description := String.intercalate "\n" descLines
  "<?xml version=\"1.0\" encoding=\"UTF-8\"?>\n" ++
  "<package version=\"2.0\" unique-identifier=\"BookId\" xmlns=\"http://www.idpf.org/2007/opf\">\n" ++
  "  <metadata xmlns:dc=\"http://purl.org/dc/elements/1.1/\" xmlns:opf=\"http://www.idpf.org/2007/opf\">\n" ++
  "    <dc:identifier id=\"BookId\">" ++ xmlEscape bookId ++ "</dc:identifier>\n" ++
  "    <dc:title>" ++ xmlEscape title ++ "</dc:title>\n" ++
  (if artist ≠ "" then "    <dc:creator opf:role=\"aut\">" ++ xmlEscape artist ++ "</dc:creator>\n" else "") ++
  (if narrator ≠ "" then "    <dc:contributor opf:role=\"nrt\">" ++ xmlEscape narrator ++ "</dc:contributor>\n" else "") ++
  (if publisher ≠ "" then "    <dc:publisher>" ++ xmlEscape publisher ++ "</dc:publisher>\n" else "") ++
  (if dateStr ≠ "" then "    <dc:date>" ++ xmlEscape dateStr ++ "</dc:date>\n" else "") ++
  "    <dc:language>" ++ xmlEscape language ++ "</dc:language>\n" ++
  (if genre ≠ "" then "    <dc:subject>" ++ xmlEscape genre ++ "</dc:subject>\n" else "") ++
  (if description ≠ "" then "    <dc:description>" ++ xmlEscape description ++ "</dc:description>\n" else "") ++
  (if url ≠ "" then "    <dc:source>" ++ xmlEscape url ++ "</dc:source>\n" else "") ++
  (if series ≠ "" then "    <meta name=\"calibre:series\" content=\"" ++ xmlEscape series ++ "\"/>\n" else "") ++
  (if series ≠ "" ∧ seriesIndex ≠ "" then "    <meta name=\"calibre:series_index\" content=\"" ++ xmlEscape seriesIndex ++ "\"/>\n" else "") ++
  "  </metadata>\n" ++
  "  <manifest/>\n" ++
  "  <spine toc=\"ncx\"/>\n" ++
  "</package>\n"

/-- Embeds `_ensure_folder_opf`: create `metadata.opf` only when it does not already
exist; an existing descriptor (modelled as `some content`) is returned
untouched. -/
def ensure_folder_opf (existing : Option String) (folderName : String)
    (meta : OpfMeta) (bookId : String) : Option String :=
  match existing with
  | some c => some c
  | none => some (opfContent folderName meta bookId)

/-! ## Dispatcher state machine (`app/watchers/dispatcher_watch.py`)

The per-job slice of the filesystem touched by one dispatch: artifact size,
error-record content, and the finalization side effects.  `errText = some s`
means the `.err.txt` sidecar exists with content `s`. -/

structure JobFS where
  mp3Size : Option Nat
  errText : Option String
  basicTagged : Bool
  extendedTagged : Bool
  opf : Option String
  cover : Bool
  mtimeSet : Bool
  permsFixed : Bool
  deriving Repr, DecidableEq, Inhabited

/-- State right after submission: no artifact, no error record. -/
def submittedFS : JobFS :=
  { mp3Size := none, errText := none, basicTagged := false,
    extendedTagged := false, opf := none, cover := false,
    mtimeSet := false, permsFixed := false }

/-- Readiness (`is_ready`): the artifact exists with nonzero size
(`out_mp3.exists() and out_mp3.stat().st_size > 0`). -/
def ready (fs : JobFS) : Bool :=
  match fs.mp3Size with
  | some n => decide (0 < n)
  | none => false

/-- Error state (`is_errored`): the error sidecar exists with nonzero size
(`err_file.exists() and err_file.stat().st_size > 0`). -/
def errored (fs : JobFS) : Bool :=
  match fs.errText with
  | some s => decide (s ≠ "")
  | none => false

/-- File content written by `_write_err`: message, optional traceback, optional
truncated text sample, joined by blank lines (the `"\n\n".join` of the
blocks, written here with the separators fused into the optional blocks). -/
def write_err_blob (msg : String) (tb : Option String) (sample : String) : String :=
  "ERROR: " ++ msg ++
    (match tb with | some t => "\n\n\nTRACEBACK:\n" ++ t | none => "") ++
    (if sample ≠ "" then
      "\n\n\nTEXT SAMPLE (first 400 chars):\n" ++ String.mk (sample.toList.take 400)
    else "")

def writeErr (fs : JobFS) (msg : String) (tb : Option String) (sample : String) : JobFS :=
  { fs with errText := some (write_err_blob msg tb sample) }

/-- Computes `str(meta.get("backend") or selected or "").strip()`. -/
def chooseBackendId (jobBackend : Option String) (selected : String) : String :=
  pyStrip
    (match jobBackend with
     | some b => if b ≠ "" then b else selected
     | none => selected)

/-- Embeds `get_backend` over the registry, modelled as `(backend_id, available())`
pairs; an empty id yields `None`. -/
def get_backend (reg : List (String × Bool)) (beId : String) : Option (String × Bool) :=
  if beId = "" then none else reg.find? (fun p => p.1 = beId)

/-- Computes the `(none)` fallback of the backend id shown in the unavailable-backend error message. -/
def shownBackendId (beId : String) : String := if beId = "" then "(none)" else beId

def unavailableMsg (beId : String) : String :=
  "Requested backend " ++ apos ++ shownBackendId beId ++ apos ++ " is not available"

/-- Environment of one dispatch of one job: registry contents, configured
default backend, job metadata, job text, the synthesis outcome when invoked,
and which finalization steps raise an exception. -/
structure DispatchEnv where
  registry : List (String × Bool)
  selected : String
  jobBackend : Option String
  rawText : String
  body : String
  synthResult : Except String Nat
  finalizeBasicRaises : Bool
  extendedRaises : Bool
  dateParses : Bool
  opfRaises : Bool
  coverRaises : Bool
  coverFetched : Bool
  touchRaises : Bool
  permsRaises : Bool
  folderName : String
  opfMeta : OpfMeta
  bookId : String
  deriving Repr

/-- The tail of `finalize_output` after the basic EasyID3 tagging (which is
the only step not individually wrapped in try/except; its raising is handled
by the caller).  Every wrapped step that raises is swallowed and simply
leaves its effect unapplied; execution continues with the next step. -/
def finalize_output_rest (env : DispatchEnv) (fs : JobFS) : JobFS :=
  let fs := { fs with basicTagged := true }
  let fs := if env.extendedRaises then fs else { fs with extendedTagged := true }
  let fs := if env.dateParses then { fs with mtimeSet := true } else fs
  let fs := if env.opfRaises then fs
            else { fs with opf := ensure_folder_opf fs.opf env.folderName env.opfMeta env.bookId }
  let fs := if env.permsRaises then fs else { fs with permsFixed := true }
  fs

/-- Wrapped post-finalize calls of the dispatcher: `download_cover_image`
(skips an existing cover, swallows all failures) and
`touch_folder_and_supporting_from_meta` (swallows all failures). -/
def afterFinalize (env : DispatchEnv) (fs : JobFS) : JobFS :=
  let fs := if env.coverRaises then fs
            else if fs.cover then fs
            else { fs with cover := env.coverFetched }
  let fs := if env.touchRaises then fs
            else if env.dateParses then { fs with mtimeSet := true } else fs
  fs

/-- One dispatch of one job (the per-`txt_path` body of the `run` loop),
returning every observation point (`states`, initial state first), the final
state, and whether `synthesize_to_mp3` was invoked. -/
structure DispatchResult where
  states : List JobFS
  final : JobFS
  synthCalled : Bool
  deriving Repr

/-- The backend chosen for this job is missing from the registry or reports
unavailable (`not be_for_job or not be_for_job.available()`). -/
def backendUnavailable (env : DispatchEnv) : Bool :=
  match get_backend env.registry (chooseBackendId env.jobBackend env.selected) with
  | none => true
  | some be => !be.2

def emptyTextErr (env : DispatchEnv) (fs : JobFS) : JobFS :=
  writeErr fs "Empty text after preprocessing" none env.rawText

def unavailErr (env : DispatchEnv) (fs : JobFS) : JobFS :=
  writeErr fs (unavailableMsg (chooseBackendId env.jobBackend env.selected)) none env.body

def synthExcErr (env : DispatchEnv) (fs : JobFS) (m : String) : JobFS :=
  writeErr fs ("Exception during synthesis via " ++ chooseBackendId env.jobBackend env.selected)
    (some m) env.body

/-- Artifact renamed into place by the backend. -/
def withArtifact (fs : JobFS) (size : Nat) : JobFS := { fs with mp3Size := some size }

/-- Embeds `if err_file.exists(): err_file.unlink()` after a successful finalize. -/
def clearStaleErr (fs : JobFS) : JobFS :=
  if fs.errText.isSome then { fs with errText := none } else fs

/-- Observation points of the success path, after the artifact appears. -/
def successTail (env : DispatchEnv) (fs : JobFS) (size : Nat) : List JobFS :=
  [withArtifact fs size,
   finalize_output_rest env (withArtifact fs size),
   afterFinalize env (finalize_output_rest env (withArtifact fs size)),
   clearStaleErr (afterFinalize env (finalize_output_rest env (withArtifact fs size)))]

def dispatchJob (env : DispatchEnv) (fs : JobFS) : DispatchResult :=
  -- `if base in seen or ready or errored: continue`
  if ready fs || errored fs then ⟨[fs], fs, false⟩
  else if pyStrip env.rawText = "" then
    ⟨[fs, emptyTextErr env fs], emptyTextErr env fs, false⟩
  else if backendUnavailable env then
    ⟨[fs, unavailErr env fs], unavailErr env fs, false⟩
  else
    match env.synthResult with
    | Except.error m =>
      ⟨[fs, synthExcErr env fs m], synthExcErr env fs m, true⟩
    | Except.ok size =>
      if env.finalizeBasicRaises then
        -- uncaught exception inside the basic tagging of finalize_output
        ⟨[fs, withArtifact fs size,
          synthExcErr env (withArtifact fs size) "finalize_output raised"],
         synthExcErr env (withArtifact fs size) "finalize_output raised", true⟩
      else
        ⟨fs :: successTail env fs size,
         clearStaleErr (afterFinalize env (finalize_output_rest env (withArtifact fs size))),
         true⟩

/-! ## Backend synthesis (`app/backends/edge.py`, `app/backends/piper.py`) -/

/-- Files the edge backend touches: its temporary `<name>.mp3.tmp` and the
destination, each `some size` when present. -/
structure EdgeFS where
  tmp : Option Nat
  out : Option Nat
  deriving Repr, DecidableEq

/-- Embeds `EdgeBackend.synthesize_to_mp3` after `communicate.save` wrote (or failed
to write) the temporary file: `produced` is the size of the temporary file, `none`
when the engine produced nothing.  Undersized output deletes the temporary
file and raises; valid output is atomically renamed onto the destination. -/
def edge_synthesize_to_mp3 (minBytes : Nat) (produced : Option Nat)
    (fs : EdgeFS) : EdgeFS × Except String Nat :=
  let fs := { fs with tmp := produced }
  match produced with
  | some size =>
    if size < minBytes then
      ({ fs with tmp := none },
       Except.error ("edge-tts produced a too-small MP3 (" ++ toString size ++ " bytes)"))
    else
      ({ tmp := none, out := some size }, Except.ok size)
  | none =>
    match fs.out with
    | some osize =>
      if minBytes ≤ osize then (fs, Except.ok osize)
      else (fs, Except.error "edge-tts did not produce an MP3 file")
    | none => (fs, Except.error "edge-tts did not produce an MP3 file")

/-- Files the piper backend touches under `<out>/.tmp/`: the intermediate
WAV, the temporary MP3, and the destination. -/
structure PiperFS where
  wavTmp : Bool
  mp3Tmp : Option Nat
  out : Option Nat
  deriving Repr, DecidableEq

/-- Embeds `PiperBackend.synthesize_to_mp3`: tool checks, synth to WAV, convert to a
temporary MP3 of size `mp3Size`, then the size check.  On undersized output
it raises without removing the temporary files; on success it renames the
temporary MP3 onto the destination and unlinks the WAV.  (Error strings keep
the fixed message prefix; the Python messages append tool paths.) -/
def piper_synthesize_to_mp3 (minBytes : Nat) (modelFound piperOk ffmpegOk : Bool)
    (mp3Size : Nat) (fs : PiperFS) : PiperFS × Except String Nat :=
  if !modelFound then (fs, Except.error "Piper model not found")
  else if !piperOk then (fs, Except.error "Piper not found or failed to run")
  else if !ffmpegOk then (fs, Except.error "ffmpeg not found or failed to run")
  else
    let fs := { fs with wavTmp := true, mp3Tmp := some mp3Size }
    if mp3Size < minBytes then
      (fs, Except.error ("Generated MP3 too small (" ++ toString mp3Size ++ " bytes)"))
    else
      ({ wavTmp := false, mp3Tmp := none, out := some mp3Size }, Except.ok mp3Size)

/-! ## Basic facts about the dispatcher model -/

theorem ready_writeErr (fs : JobFS) (m : String) (t : Option String) (b : String) :
    ready (writeErr fs m t b) = ready fs := rfl

theorem errText_finalize_output_rest (env : DispatchEnv) (fs : JobFS) :
    (finalize_output_rest env fs).errText = fs.errText := by
  unfold finalize_output_rest
  cases env.extendedRaises <;> cases env.dateParses <;> cases env.opfRaises <;>
    cases env.permsRaises <;> rfl

theorem mp3Size_finalize_output_rest (env : DispatchEnv) (fs : JobFS) :
    (finalize_output_rest env fs).mp3Size = fs.mp3Size := by
  unfold finalize_output_rest
  cases env.extendedRaises <;> cases env.dateParses <;> cases env.opfRaises <;>
    cases env.permsRaises <;> rfl

theorem errText_afterFinalize (env : DispatchEnv) (fs : JobFS) :
    (afterFinalize env fs).errText = fs.errText := by
  unfold afterFinalize
  cases env.coverRaises <;> cases hc : fs.cover <;> cases env.touchRaises <;>
    cases env.dateParses <;> simp [hc]

theorem mp3Size_afterFinalize (env : DispatchEnv) (fs : JobFS) :
    (afterFinalize env fs).mp3Size = fs.mp3Size := by
  unfold afterFinalize
  cases env.coverRaises <;> cases hc : fs.cover <;> cases env.touchRaises <;>
    cases env.dateParses <;> simp [hc]

theorem errText_clearStaleErr (fs : JobFS) : (clearStaleErr fs).errText = none := by
  unfold clearStaleErr
  cases h : fs.errText <;> simp [h]

theorem mp3Size_clearStaleErr (fs : JobFS) : (clearStaleErr fs).mp3Size = fs.mp3Size := by
  unfold clearStaleErr
  cases h : fs.errText <;> simp [h]

theorem errored_of_errText_none (fs : JobFS) (h : fs.errText = none) :
    errored fs = false := by
  unfold errored
  rw [h]

theorem ready_of_mp3Size_none (fs : JobFS) (h : fs.mp3Size = none) :
    ready fs = false := by
  unfold ready
  rw [h]

theorem seven_le_write_err_blob_length (m : String) (t : Option String) (b : String) :
    7 ≤ (write_err_blob m t b).length := by
  have h7 : ("ERROR: ").length = 7 := rfl
  unfold write_err_blob
  cases t <;> by_cases hb : b = "" <;>
    simp [hb, String.length_append, h7] <;> omega

theorem errored_writeErr (fs : JobFS) (m : String) (t : Option String) (b : String) :
    errored (writeErr fs m t b) = true := by
  have h := seven_le_write_err_blob_length m t b
  unfold errored writeErr
  rw [decide_eq_true_iff]
  intro hc
  rw [hc] at h
  exact absurd h (by decide)

/-! ## Concrete example inputs used by witnesses and counterexamples -/

def exMeta : OpfMeta :=
  { title := "", subject := "Chapter 1", album := "Chapter 1", series := "Mybook",
    fromName := "Jane Doe", composer := "Microsoft Edge TTS", date := "2020-01-01",
    language := "", genre := "", publisher := "", track := some 3,
    url := "https://example.com/x" }

/-- A dispatch in which everything succeeds. -/
def exEnvSuccess : DispatchEnv :=
  { registry := [("edge", true)], selected := "edge", jobBackend := none,
    rawText := "Story text", body := "Story text", synthResult := Except.ok 5000,
    finalizeBasicRaises := false, extendedRaises := false, dateParses := true,
    opfRaises := false, coverRaises := false, coverFetched := true,
    touchRaises := false, permsRaises := false, folderName := "003 - Chapter 1",
    opfMeta := exMeta, bookId := "urn:uuid:00000000-0000-0000-0000-000000000000" }

/-- Synthesis succeeds but the basic tagging inside `finalize_output` raises. -/
def exEnvFinalizeRaise : DispatchEnv := { exEnvSuccess with finalizeBasicRaises := true }

/-- Synthesis succeeds and every individually wrapped finalization step raises. -/
def exEnvWrappedRaise : DispatchEnv :=
  { exEnvSuccess with
    extendedRaises := true
    opfRaises := true
    coverRaises := true
    touchRaises := true
    permsRaises := true }

/-- Synthesis itself raises. -/
def exEnvSynthFail : DispatchEnv := { exEnvSuccess with synthResult := Except.error "boom" }

/-- The requested backend is registered but reports unavailable. -/
def exEnvUnavail : DispatchEnv :=
  { exEnvSuccess with
    registry := [("edge", false), ("piper", true)]
    jobBackend := some "edge" }

/-! ## Claims -/

/-- C2 (counterexample): the claimed round-trip output path is not what the
deriver produces.  For locator
`https://example.com/fiction/mybook/chapter-003.html` with a From header
whose display-name is `Jane Doe` and subject `Chapter 1`, the derived
`output_rel` is not `Jane Doe/mybook/003 - Chapter 1/Chapter 1.mp3`: the
series folder is the title-cased slug `Mybook`, not the raw slug `mybook`. -/
theorem C2_round_trip_counterexample :
    outputRelStr (output_relpath_for
      (urlparseSimple "https://example.com/fiction/mybook/chapter-003.html")
      ⟨"Jane Doe <jane@example.com>", "Chapter 1", ""⟩).1 ≠
      "Jane Doe/mybook/003 - Chapter 1/Chapter 1.mp3" := by decide

/-- C2 (amended): the job submitted with headers whose From display-name is
`Jane Doe`, subject `Chapter 1` and locator
`https://example.com/fiction/mybook/chapter-003.html` produces
`output_rel = "Jane Doe/Mybook/003 - Chapter 1/Chapter 1.mp3"` (series folder
title-cased from the parent slug, item folder from the trailing `-003` and
the title, filename from the title), with tag hints album `Mybook`, track 3. -/
theorem C2_round_trip_amended :
    outputRelStr (output_relpath_for
      (urlparseSimple "https://example.com/fiction/mybook/chapter-003.html")
      ⟨"Jane Doe <jane@example.com>", "Chapter 1", ""⟩).1 =
      "Jane Doe/Mybook/003 - Chapter 1/Chapter 1.mp3" ∧
    (output_relpath_for
      (urlparseSimple "https://example.com/fiction/mybook/chapter-003.html")
      ⟨"Jane Doe <jane@example.com>", "Chapter 1", ""⟩).2 =
      ⟨some "Mybook", some 3⟩ := by decide

/-- C3 (counterexample): pre-file path depth 3 alone does not trigger the
non-series rule.  The non-nifty locator
`https://example.com/a/b/mybook/chapter-003.html` has depth exactly 3, yet
the derived path contains a series folder (4 segments, series `Mybook`) and
an album tag hint is emitted. -/
theorem C3_depth_counterexample :
    preFileDepth (urlparseSimple "https://example.com/a/b/mybook/chapter-003.html") = 3 ∧
    (output_relpath_for (urlparseSimple "https://example.com/a/b/mybook/chapter-003.html")
      ⟨"Jane Doe <jane@example.com>", "Chapter 1", ""⟩).1.length = 4 ∧
    (output_relpath_for (urlparseSimple "https://example.com/a/b/mybook/chapter-003.html")
      ⟨"Jane Doe <jane@example.com>", "Chapter 1", ""⟩).2.album = some "Mybook" := by decide

/-- C3 (amended): the non-series special case applies to nifty locators only:
when the lower-cased `www.`-stripped host ends in `nifty.org`, the first path
segment is `nifty`, and the path depth before the final segment is exactly 3
(`isNiftyNonSeries`), the derived path is `Author/Item/Title.mp3` with no
series folder, and no album or track tag hint is emitted. -/
theorem C3_non_series_amended (url : Url) (headers : Headers)
    (h : isNiftyNonSeries url = true) :
    (output_relpath_for url headers).1 =
      [authorDir headers, itemFolder url headers, mp3Name url headers] ∧
    (output_relpath_for url headers).2 = ⟨none, none⟩ := by
  unfold output_relpath_for
  rw [if_pos h]
  exact ⟨rfl, rfl⟩

/-- C3 (witness): the amended rule applied to the depth-3 nifty locator
`https://www.nifty.org/nifty/gay/adult-friends/some-story.html`. -/
theorem C3_non_series_witness :
    (output_relpath_for
      (urlparseSimple "https://www.nifty.org/nifty/gay/adult-friends/some-story.html")
      ⟨"Jane Doe <jane@example.com>", "Chapter 1", ""⟩).1 =
      [authorDir ⟨"Jane Doe <jane@example.com>", "Chapter 1", ""⟩,
       itemFolder (urlparseSimple "https://www.nifty.org/nifty/gay/adult-friends/some-story.html")
         ⟨"Jane Doe <jane@example.com>", "Chapter 1", ""⟩,
       mp3Name (urlparseSimple "https://www.nifty.org/nifty/gay/adult-friends/some-story.html")
         ⟨"Jane Doe <jane@example.com>", "Chapter 1", ""⟩] ∧
    (output_relpath_for
      (urlparseSimple "https://www.nifty.org/nifty/gay/adult-friends/some-story.html")
      ⟨"Jane Doe <jane@example.com>", "Chapter 1", ""⟩).2 = ⟨none, none⟩ :=
  C3_non_series_amended _ _ (by decide)

/-- C8: the output-path deriver is deterministic — the derived `output_rel`
and extra tag hints depend only on the locator and headers, not on the
timestamp (the only ambient input of `build_job`, which enters only the
`base_name` component). -/
theorem C8_deriver_deterministic (url : Url) (headers : Headers) (ts₁ ts₂ : String) :
    (derive url headers ts₁).2 = (derive url headers ts₂).2 := rfl

/-- C9: `_ensure_folder_opf` never overwrites an existing package descriptor
(existing content is returned unchanged), writes the descriptor exactly when
it is absent, and re-running the finalizer on a folder whose descriptor
exists leaves it unchanged. -/
theorem C9_opf_never_overwritten (c : String) (folderName : String) (meta : OpfMeta)
    (bookId : String) :
    ensure_folder_opf (some c) folderName meta bookId = some c ∧
    ensure_folder_opf none folderName meta bookId =
      some (opfContent folderName meta bookId) ∧
    (∀ env fs, fs.opf = some c → (finalize_output_rest env fs).opf = some c) := by
  refine ⟨rfl, rfl, ?_⟩
  intro env fs h
  unfold finalize_output_rest
  cases env.extendedRaises <;> cases env.dateParses <;> cases env.opfRaises <;>
    cases env.permsRaises <;> simp [ensure_folder_opf, h]

/-- C9 (witness): re-running the finalizer on a folder with a manually edited
descriptor preserves it. -/
theorem C9_opf_witness :
    (finalize_output_rest exEnvSuccess
      { submittedFS with opf := some "manual edits" }).opf = some "manual edits" :=
  (C9_opf_never_overwritten "manual edits" "003 - Chapter 1" exMeta "id").2.2
    exEnvSuccess _ rfl

/-- C10: a trailing numeric suffix that evaluates to zero (e.g. `-000`)
records `track = 0` in the extra tag hints, but the item folder is just the
title with no `NNN - ` prefix (Python truthiness of `track_num`), unlike any
nonzero track, whose folder is `NNN - Title`. -/
theorem C10_zero_track (url url2 : Url) (headers : Headers) (n : Nat)
    (h0 : trackNum url = some 0) (hns : isNiftyNonSeries url = false)
    (h2 : trackNum url2 = some n) (hn : n ≠ 0) :
    (output_relpath_for url headers).2.track = some 0 ∧
    itemFolder url headers = titleClean url headers ∧
    itemFolder url2 headers = pad3 n ++ " - " ++ titleClean url2 headers := by
  refine ⟨?_, ?_, ?_⟩
  · unfold output_relpath_for
    rw [if_neg (by simp [hns])]
    simp [h0]
  · unfold itemFolder
    rw [h0]
    simp
  · unfold itemFolder
    rw [h2]
    simp [hn]

/-- C10 (witness): `-000` on the locator gives track hint 0 and an unprefixed
item folder; `-003` gives the `003 - ` prefix. -/
theorem C10_zero_track_witness :
    (output_relpath_for (urlparseSimple "https://example.com/fiction/mybook/chapter-000.html")
      ⟨"Jane Doe <jane@example.com>", "Chapter 1", ""⟩).2.track = some 0 ∧
    itemFolder (urlparseSimple "https://example.com/fiction/mybook/chapter-000.html")
      ⟨"Jane Doe <jane@example.com>", "Chapter 1", ""⟩ =
      titleClean (urlparseSimple "https://example.com/fiction/mybook/chapter-000.html")
        ⟨"Jane Doe <jane@example.com>", "Chapter 1", ""⟩ ∧
    itemFolder (urlparseSimple "https://example.com/fiction/mybook/chapter-003.html")
      ⟨"Jane Doe <jane@example.com>", "Chapter 1", ""⟩ =
      pad3 3 ++ " - " ++ titleClean (urlparseSimple "https://example.com/fiction/mybook/chapter-003.html")
        ⟨"Jane Doe <jane@example.com>", "Chapter 1", ""⟩ :=
  C10_zero_track _ _ _ 3 (by decide) (by decide) (by decide) (by decide)

/-- C6 (counterexample): `build_job` writes the text file before the metadata
file, and the dispatcher enumerates jobs by their text file; at the
observation point between the two writes the job is visible while its
metadata file does not exist, so both required files are not yet written. -/
theorem C6_submit_counterexample :
    (⟨true, false⟩ : InFS) ∈ submitStates ∧
    visibleToDispatcher ⟨true, false⟩ = true ∧
    (⟨true, false⟩ : InFS).jsonWritten = false := by decide

/-- C6 (amended): `build_job` writes the text file first and the metadata
file second, so at every observation point of a submission the text file is
fully written whenever the job is visible to the dispatcher, and the
metadata file never exists without the text file — but the metadata file of
a visible job may not exist yet. -/
theorem C6_submit_amended :
    ∀ s ∈ submitStates,
      (visibleToDispatcher s = true → s.txtWritten = true) ∧
      (s.jsonWritten = true → s.txtWritten = true) := by decide

/-- C6 (witness): the amended ordering at the intermediate state. -/
theorem C6_submit_witness : (⟨true, false⟩ : InFS).txtWritten = true :=
  (C6_submit_amended ⟨true, false⟩ (by decide)).1 (by decide)

/-- C7: a claimed job whose selected backend (job-specified, else the
configured default) is missing from the registry or reports unavailable is
failed immediately: the dispatcher writes an Error Record whose message names
the requested backend id, the job becomes errored, and synthesis is never
invoked. -/
theorem C7_backend_unavailable (env : DispatchEnv)
    (htext : pyStrip env.rawText ≠ "") (hbe : backendUnavailable env = true) :
    (dispatchJob env submittedFS).synthCalled = false ∧
    errored (dispatchJob env submittedFS).final = true ∧
    (dispatchJob env submittedFS).final.errText =
      some (write_err_blob
        (unavailableMsg (chooseBackendId env.jobBackend env.selected)) none env.body) := by
  unfold dispatchJob
  rw [if_neg (show ¬((ready submittedFS || errored submittedFS) = true) by decide),
      if_neg htext, if_pos hbe]
  exact ⟨rfl, errored_writeErr _ _ _ _, rfl⟩

/-- C7 (witness): a job requesting the registered-but-unavailable backend
`edge` errors immediately with the identifying message and no synthesis. -/
theorem C7_backend_unavailable_witness :
    (dispatchJob exEnvUnavail submittedFS).synthCalled = false ∧
    errored (dispatchJob exEnvUnavail submittedFS).final = true ∧
    (dispatchJob exEnvUnavail submittedFS).final.errText =
      some (write_err_blob
        (unavailableMsg (chooseBackendId exEnvUnavail.jobBackend exEnvUnavail.selected))
        none exEnvUnavail.body) :=
  C7_backend_unavailable exEnvUnavail (by decide) (by decide)

/-- C4 (counterexample): an exception inside the basic tag step of `finalize_output`
embedding (the only finalization step not individually wrapped in
try/except) propagates to the dispatcher, which writes an error record: a
finalization failure does fail the job. -/
theorem C4_finalize_counterexample :
    errored (dispatchJob exEnvFinalizeRaise submittedFS).final = true ∧
    (dispatchJob exEnvFinalizeRaise submittedFS).final.errText ≠ none := by decide

/-- C4 (amended): exceptions raised inside the individually wrapped
finalization steps (extended tagging, timestamp back-dating, package
descriptor, cover fetch, folder touch, permission normalization) are caught
within the step and the job still ends ready with no error record; only an
exception in the unwrapped basic tag embedding fails the job. -/
theorem C4_finalize_amended (env : DispatchEnv) (size : Nat)
    (hok : env.synthResult = Except.ok size) (hsz : 0 < size)
    (hfin : env.finalizeBasicRaises = false)
    (htext : pyStrip env.rawText ≠ "") (hbe : backendUnavailable env = false) :
    ready (dispatchJob env submittedFS).final = true ∧
    (dispatchJob env submittedFS).final.errText = none := by
  unfold dispatchJob
  rw [if_neg (show ¬((ready submittedFS || errored submittedFS) = true) by decide),
      if_neg htext, if_neg (by simp [hbe]), hok]
  simp only [hfin, Bool.false_eq_true, if_false]
  constructor
  · have hm : (clearStaleErr (afterFinalize env
        (finalize_output_rest env (withArtifact submittedFS size)))).mp3Size = some size := by
      rw [mp3Size_clearStaleErr, mp3Size_afterFinalize, mp3Size_finalize_output_rest]
      rfl
    simp [ready, hm, hsz]
  · exact errText_clearStaleErr _

/-- C4 (witness): a dispatch in which every wrapped finalization step raises
still ends ready with no error record. -/
theorem C4_finalize_witness :
    ready (dispatchJob exEnvWrappedRaise submittedFS).final = true ∧
    (dispatchJob exEnvWrappedRaise submittedFS).final.errText = none :=
  C4_finalize_amended exEnvWrappedRaise 5000 rfl (by decide) rfl (by decide) (by decide)

/-- C5 (counterexample): the piper backend violates the temporary-file
clean-up: on an undersized MP3 (100 bytes < 1024 minimum) it raises but
leaves both the temporary MP3 and the WAV behind in its `.tmp` directory. -/
theorem C5_undersized_counterexample :
    (piper_synthesize_to_mp3 1024 true true true 100 ⟨false, none, none⟩).1.mp3Tmp = some 100 ∧
    (piper_synthesize_to_mp3 1024 true true true 100 ⟨false, none, none⟩).1.wavTmp = true ∧
    (piper_synthesize_to_mp3 1024 true true true 100 ⟨false, none, none⟩).2 =
      Except.error "Generated MP3 too small (100 bytes)" :=
  ⟨rfl, rfl, rfl⟩

/-- C5 (amended): synthesis output below the configured minimum byte
threshold makes the synthesis call raise, and the dispatcher then writes an
Error Record; the edge backend removes its temporary file, while the piper
backend leaves its temporary MP3 behind. -/
theorem C5_undersized_amended (minBytes sz : Nat) (hsz : sz < minBytes)
    (efs : EdgeFS) (pfs : PiperFS) (env : DispatchEnv) (m : String)
    (hsynth : env.synthResult = Except.error m)
    (htext : pyStrip env.rawText ≠ "") (hbe : backendUnavailable env = false) :
    (edge_synthesize_to_mp3 minBytes (some sz) efs).1.tmp = none ∧
    (edge_synthesize_to_mp3 minBytes (some sz) efs).2 =
      Except.error ("edge-tts produced a too-small MP3 (" ++ toString sz ++ " bytes)") ∧
    (piper_synthesize_to_mp3 minBytes true true true sz pfs).1.mp3Tmp = some sz ∧
    (piper_synthesize_to_mp3 minBytes true true true sz pfs).2 =
      Except.error ("Generated MP3 too small (" ++ toString sz ++ " bytes)") ∧
    errored (dispatchJob env submittedFS).final = true := by
  refine ⟨?_, ?_, ?_, ?_, ?_⟩
  · simp [edge_synthesize_to_mp3, hsz]
  · simp [edge_synthesize_to_mp3, hsz]
  · simp [piper_synthesize_to_mp3, hsz]
  · simp [piper_synthesize_to_mp3, hsz]
  · unfold dispatchJob
    rw [if_neg (show ¬((ready submittedFS || errored submittedFS) = true) by decide),
        if_neg htext, if_neg (by simp [hbe]), hsynth]
    exact errored_writeErr _ _ _ _

/-- C5 (witness): the amended behaviour at threshold 1024 with a 100-byte
output and a failing dispatch. -/
theorem C5_undersized_witness :
    (edge_synthesize_to_mp3 1024 (some 100) ⟨none, none⟩).1.tmp = none ∧
    (edge_synthesize_to_mp3 1024 (some 100) ⟨none, none⟩).2 =
      Except.error ("edge-tts produced a too-small MP3 (" ++ toString 100 ++ " bytes)") ∧
    (piper_synthesize_to_mp3 1024 true true true 100 ⟨true, none, none⟩).1.mp3Tmp = some 100 ∧
    (piper_synthesize_to_mp3 1024 true true true 100 ⟨true, none, none⟩).2 =
      Except.error ("Generated MP3 too small (" ++ toString 100 ++ " bytes)") ∧
    errored (dispatchJob exEnvSynthFail submittedFS).final = true :=
  C5_undersized_amended 1024 100 (by decide) ⟨none, none⟩ ⟨true, none, none⟩
    exEnvSynthFail "boom" rfl (by decide) (by decide)

/-- C1 (counterexample): after submission, when synthesis succeeds and
`finalize_output` then raises, the dispatcher writes an error record next to
the already-renamed artifact: an observation point exists at which a ready
artifact and a nonzero error record exist simultaneously. -/
theorem C1_mutex_counterexample :
    ∃ s ∈ (dispatchJob exEnvFinalizeRaise submittedFS).states,
      ready s = true ∧ errored s = true := by decide

/-- C1 (amended): starting from the submitted state (no artifact, no error
record), every observation point of a dispatch in which `finalize_output`
does not raise satisfies the exclusivity invariant: a ready artifact and an
error record never exist simultaneously (so exactly one of no-artifact,
ready, errored holds). -/
theorem C1_mutex_amended (env : DispatchEnv)
    (hfin : env.finalizeBasicRaises = false) :
    ∀ s ∈ (dispatchJob env submittedFS).states,
      ¬(ready s = true ∧ errored s = true) := by
  intro s hs hboth
  obtain ⟨hr, he⟩ := hboth
  unfold dispatchJob at hs
  rw [if_neg (show ¬((ready submittedFS || errored submittedFS) = true) by decide)] at hs
  by_cases hempty : pyStrip env.rawText = ""
  · rw [if_pos hempty] at hs
    simp only [DispatchResult.mk.injEq] at hs
    simp at hs
    rcases hs with rfl | rfl
    · exact absurd hr (by decide)
    · have : ready (emptyTextErr env submittedFS) = false := rfl
      rw [this] at hr
      exact Bool.false_ne_true hr
  · rw [if_neg hempty] at hs
    by_cases hbe : backendUnavailable env = true
    · rw [if_pos hbe] at hs
      simp at hs
      rcases hs with rfl | rfl
      · exact absurd hr (by decide)
      · have : ready (unavailErr env submittedFS) = false := rfl
        rw [this] at hr
        exact Bool.false_ne_true hr
    · rw [if_neg hbe] at hs
      cases hsr : env.synthResult with
      | error m =>
        rw [hsr] at hs
        simp at hs
        rcases hs with rfl | rfl
        · exact absurd hr (by decide)
        · have : ready (synthExcErr env submittedFS m) = false := rfl
          rw [this] at hr
          exact Bool.false_ne_true hr
      | ok size =>
        rw [hsr] at hs
        simp only [hfin, Bool.false_eq_true, if_false] at hs
        simp [successTail] at hs
        rcases hs with rfl | rfl | rfl | rfl | rfl
        · exact absurd hr (by decide)
        · have : errored (withArtifact submittedFS size) = false := rfl
          rw [this] at he
          exact Bool.false_ne_true he
        · have h2 : (finalize_output_rest env (withArtifact submittedFS size)).errText = none :=
            (errText_finalize_output_rest env (withArtifact submittedFS size)).trans rfl
          rw [errored_of_errText_none _ h2] at he
          exact Bool.false_ne_true he
        · have h3 : (afterFinalize env
              (finalize_output_rest env (withArtifact submittedFS size))).errText = none :=
            (errText_afterFinalize env _).trans
              ((errText_finalize_output_rest env (withArtifact submittedFS size)).trans rfl)
          rw [errored_of_errText_none _ h3] at he
          exact Bool.false_ne_true he
        · rw [errored_of_errText_none _ (errText_clearStaleErr _)] at he
          exact Bool.false_ne_true he

set_option maxRecDepth 4000 in
/-- C1 (witness): the exclusivity invariant at the final state of a fully
successful dispatch. -/
theorem C1_mutex_witness :
    ¬(ready (dispatchJob exEnvSuccess submittedFS).final = true ∧
      errored (dispatchJob exEnvSuccess submittedFS).final = true) :=
  C1_mutex_amended exEnvSuccess rfl _ (by decide)

end NiftyTTS
